import Mathlib


/-!
Verification development for the web-search MCP server (`src/main.py`).

The Python module scrapes search-engine result pages through a Selenium
browser session.  The parts with real decision logic are:

* `WebSearcher.search_with_fallback` — ordered fallback over the engines
  google, duckduckgo, bing, with a `blocked_engines` set tracking engines
  whose last attempt raised;
* the three per-engine result parsers `_parse_google_results`,
  `_parse_duckduckgo_results`, `_parse_bing_results`;
* `_is_google_blocked` — block-page detection;
* `get_page_content` — page-text extraction, cleanup and truncation.

The embedding below is shallow: the DOM elements an engine page yields are
modelled as the lists of texts / `href` attributes the Python code reads off
them, adapter calls are modelled as an oracle `String → Outcome`, and every
operation that can raise in Python is modelled with `Except String`.
`urlparse(url).netloc` (an external library call whose output none of the
claims depend on) is abstracted as a parameter `netloc : String → String`.
Python's string methods are modelled by the kernel-computable char-list
functions of the next section.
-/

/-! ### Python string primitives

The Python code uses `str.strip`, `str.startswith`, `str.split`,
`str.splitlines`, `str.lower`, slicing and `in`.  They are modelled here by
structurally recursive functions over the character list of a `String`, so
that every definition evaluates inside the kernel.  Python's `len` and
slicing count code points, as `List Char` does.  `str.strip` with no
argument strips whitespace (modelled by `Char.isWhitespace`), and
`str.splitlines` is modelled as splitting on a newline character. -/

/-- Python `len(s)`. -/
def pyLen (s : String) : Nat := s.data.length

/-- Python `s.strip()`. -/
def pyStrip (s : String) : String :=
  ⟨((s.data.dropWhile Char.isWhitespace).reverse.dropWhile Char.isWhitespace).reverse⟩

/-- Python `s.startswith(pre)`. -/
def pyStartsWith (s pre : String) : Bool :=
  pre.data.isPrefixOf s.data

/-- Python `s[:n]`. -/
def pyTake (s : String) (n : Nat) : String := ⟨s.data.take n⟩

/-- Python `s.lower()` (ASCII case folding suffices for the fixed phrases
compared here). -/
def pyLower (s : String) : String := ⟨s.data.map Char.toLower⟩

/-- Scan left to right, splitting at each non-overlapping occurrence of the
(non-empty) separator; the fuel argument, instantiated with the input
length, keeps the recursion structural. -/
def splitOnListAux (sep : List Char) : Nat → List Char → List Char → List (List Char)
  | 0, cur, s => [cur.reverse ++ s]
  | _ + 1, cur, [] => [cur.reverse]
  | fuel + 1, cur, c :: rest =>
    if sep.isPrefixOf (c :: rest) then
      cur.reverse :: splitOnListAux sep fuel [] (List.drop sep.length (c :: rest))
    else
      splitOnListAux sep fuel (c :: cur) rest

/-- Python `s.split(sep)` for a non-empty separator. -/
def pySplitOn (s sep : String) : List String :=
  (splitOnListAux sep.data s.data.length [] s.data).map (fun l => ⟨l⟩)

/-- Python `needle in hay` for strings: `needle` occurs as a contiguous
substring of `hay`. -/
def containsList (needle : List Char) : List Char → Bool
  | [] => needle.isEmpty
  | c :: rest => needle.isPrefixOf (c :: rest) || containsList needle rest

/-- Python `needle in hay`. -/
def containsSubstring (needle hay : String) : Bool :=
  containsList needle.data hay.data

/-- Canonical search-result record built by every parser
(`src/main.py`, the `results.append({...})` calls). -/
structure SearchResult where
  title : String
  url : String
  domain : String
  snippet : String
  rank : Nat
  source_engine : String
deriving DecidableEq

/-- Outcome of one engine-adapter call (`engine['method'](query, ...)`,
`src/main.py:101`): either a parsed result list, or a raised exception.
The exception text plays no role in the control flow. -/
inductive Outcome where
  | ok : List SearchResult → Outcome
  | err : Outcome
deriving DecidableEq

/-- The fixed engine preference order (`self.search_engines`,
`src/main.py:42-46`); only the names matter to the control flow. -/
def searchEngines : List String := ["google", "duckduckgo", "bing"]

/-- The engine-trying loop of `search_with_fallback` (`src/main.py:91-118`).
Besides the returned `(results, engine_name)` pair it exposes the final
`blocked_engines` set and the list of attempts actually made (engine name
with the adapter outcome, oldest first), which model the mutation of
`self.blocked_engines` and the adapter calls issued. -/
def fallbackLoop (adapters : String → Outcome) :
    List String → Finset String →
      (List SearchResult × String) × Finset String × List (String × Outcome)
  | [], blocked => (([], "none"), blocked, [])
  | e :: rest, blocked =>
    if e ∈ blocked then
      -- src/main.py:95-97, skip engines known to be blocked
      fallbackLoop adapters rest blocked
    else
      match adapters e with
      | .err =>
        -- src/main.py:111-115, exception: add to blocked set, continue
        let r := fallbackLoop adapters rest (insert e blocked)
        (r.1, r.2.1, (e, .err) :: r.2.2)
      | .ok rs =>
        if rs.isEmpty then
          -- src/main.py:108-109, empty result list: continue, set unchanged
          let r := fallbackLoop adapters rest blocked
          (r.1, r.2.1, (e, .ok rs) :: r.2.2)
        else
          -- src/main.py:103-107, success: discard from blocked set, return
          ((rs, e), blocked.erase e, [(e, .ok rs)])

/-- `WebSearcher.search_with_fallback` (`src/main.py:71-118`).  The driver
setup on lines 83-84 runs outside any `try`, so a setup failure propagates
(modelled by the `Except` result); with a live driver the engine loop runs.
(The `self.driver is None` re-check on lines 86-88 is unreachable because
`_setup_driver` either raises or assigns the driver, and is omitted.) -/
def search_with_fallback (driverInitialized : Bool) (setup : Except String Unit)
    (adapters : String → Outcome) (blocked : Finset String) :
    Except String ((List SearchResult × String) × Finset String × List (String × Outcome)) := do
  if !driverInitialized then setup
  pure (fallbackLoop adapters searchEngines blocked)

/-- Spec-side test, from the spec's words for claim C1: an engine is usable
when its name is not in the blocked set and its adapter returns a non-empty
result list. -/
def specUsableEngine (adapters : String → Outcome) (blocked : Finset String)
    (e : String) : Bool :=
  !(decide (e ∈ blocked)) &&
    (match adapters e with
     | .ok rs => !rs.isEmpty
     | .err => false)

/-- Modelled from the spec (refinement side of claim C1): scan the fixed
preference order for the first usable engine and return its results paired
with its name; otherwise return `([], "none")`. -/
def specFallback (adapters : String → Outcome) (blocked : Finset String) :
    List SearchResult × String :=
  match searchEngines.find? (specUsableEngine adapters blocked) with
  | some e => ((match adapters e with | .ok rs => rs | .err => []), e)
  | none => ([], "none")

/-- `WebSearcher.reset_blocked_engines` (`src/main.py:445-448`):
`self.blocked_engines.clear()`. -/
def reset_blocked_engines (_blocked : Finset String) : Finset String := ∅

/-- A primitive event in the lifetime of the blocked-engine set: one adapter
attempt (with its outcome), or one `reset_blocked_engines` call. -/
inductive PEvent where
  | attempt : String → Outcome → PEvent
  | reset : PEvent

/-- An externally triggered operation: one `search_with_fallback` call (with
the adapter behaviour it observes) or one `reset_blocked_engines` call. -/
inductive Event where
  | searchCall : (String → Outcome) → Event
  | resetCall : Event

/-- Effect of one operation on the blocked-engine set, together with the
primitive events it appends to the process history. -/
def stepEvent (st : Finset String × List PEvent) : Event → Finset String × List PEvent
  | .searchCall adapters =>
    let r := fallbackLoop adapters searchEngines st.1
    (r.2.1, st.2 ++ r.2.2.map (fun a => PEvent.attempt a.1 a.2))
  | .resetCall => (reset_blocked_engines st.1, st.2 ++ [PEvent.reset])

/-- Run a sequence of operations from the initial state
(`self.blocked_engines = set()`, `src/main.py:47`), returning the final
blocked set and the full primitive-event history (oldest first). -/
def runEvents (evs : List Event) : Finset String × List PEvent :=
  evs.foldl stepEvent (∅, [])

/-- Spec-side reading of the history (newest event first): the engine's most
recent adapter attempt raised, and no reset has happened since. -/
def mostRecentAttemptErred (e : String) : List PEvent → Bool
  | [] => false
  | .reset :: _ => false
  | .attempt f o :: rest =>
    if f = e then (match o with | .err => true | .ok _ => false)
    else mostRecentAttemptErred e rest

/-- The blocked-set/history invariant of claim C2. -/
def BlockedInv (b : Finset String) (h : List PEvent) : Prop :=
  ∀ e, e ∈ b ↔ mostRecentAttemptErred e h.reverse = true

/-- What `_parse_google_results` (`src/main.py:199-269`) reads off one result
container: the texts of its `.//h3` elements, the `href` attributes of the
`.//h3/parent::a | .//h3/ancestor::a` elements, the `href` attributes of the
fallback `.//a[@href]` elements (`get_attribute` may return no value, hence
`Option`), and for each of the five snippet XPaths the texts of the matched
elements, in XPath order. -/
structure GContainer where
  h3Texts : List String
  primaryLinks : List (Option String)
  anchorLinks : List (Option String)
  snippetCandidates : List (List String)

/-- Google snippet selection (`src/main.py:243-249`): walk the snippet XPaths
in order; whenever a XPath matches elements, look at the first element's
stripped text and keep it only if it is longer than 20 characters, otherwise
move on to the next XPath; default is the empty string. -/
def googleSnippet : List (List String) → String
  | [] => ""
  | cand :: rest =>
    match cand with
    | [] => googleSnippet rest
    | t :: _ =>
      let s := pyStrip t
      if pyLen s > 20 then s else googleSnippet rest

/-- Google redirect unwrapping (`src/main.py:230-231`):
`url.split('/url?q=')[1].split('&')[0]` when the url starts with
`/url?q=`. -/
def googleUnwrap (url : String) : String :=
  if pyStartsWith url "/url?q=" then
    ((pySplitOn ((pySplitOn url "/url?q=").getD 1 "") "&")).headD ""
  else url

/-- Per-container extraction of `_parse_google_results`
(`src/main.py:210-260`), for the container at enumeration index `i`:
skip when there is no `h3`, when the first `h3` strips to an empty title,
when neither link selector matches, when the first link has no `href` or an
empty one, or when the link starts with `/search` or `#`; otherwise unwrap a
`/url?q=` redirect, pick the snippet if requested, and emit the record with
`rank = i + 1`. -/
def googleExtract (netloc : String → String) (includeSnippets : Bool)
    (i : Nat) (c : GContainer) : Option SearchResult :=
  match c.h3Texts with
  | [] => none
  | t0 :: _ =>
    let title := pyStrip t0
    if title = "" then none
    else
      match (if c.primaryLinks.isEmpty then c.anchorLinks else c.primaryLinks) with
      | [] => none
      | l0 :: _ =>
        match l0 with
        | none => none
        | some url0 =>
          if url0 = "" || pyStartsWith url0 "/search" || pyStartsWith url0 "#" then none
          else
            let url := googleUnwrap url0
            let snippet := if includeSnippets then googleSnippet c.snippetCandidates else ""
            some { title := title, url := url, domain := netloc url,
                   snippet := snippet, rank := i + 1, source_engine := "google" }

/-- `_parse_google_results` (`src/main.py:199-269`): enumerate the first
`max_results` containers and collect the per-container extractions, keeping
the enumeration index of each container as its rank base. -/
def parse_google_results (netloc : String → String) (maxResults : Nat)
    (includeSnippets : Bool) (containers : List GContainer) : List SearchResult :=
  (containers.take maxResults).enum.filterMap
    (fun p => googleExtract netloc includeSnippets p.1 p.2)

/-- What `_parse_duckduckgo_results` (`src/main.py:271-320`) and
`_parse_bing_results` (`src/main.py:322-371`) read off one result container:
the (text, `href`) pairs of the title-link elements and the texts of the
snippet elements.  The two parsers are line-for-line identical up to the CSS
selectors and the `source_engine` string. -/
structure LinkContainer where
  titleLinks : List (String × Option String)
  snippetTexts : List String

/-- Per-container extraction shared by the DuckDuckGo and Bing parsers
(`src/main.py:282-311` and `src/main.py:333-362`): skip when no title link
matches, when the title strips to empty, or when the `href` is missing or
empty; otherwise emit the record with the `href` unchanged, the first
snippet element's stripped text (whatever its length) when requested, and
`rank = i + 1`. -/
def linkExtract (engine : String) (netloc : String → String)
    (includeSnippets : Bool) (i : Nat) (c : LinkContainer) : Option SearchResult :=
  match c.titleLinks with
  | [] => none
  | (t0, href0) :: _ =>
    let title := pyStrip t0
    match href0 with
    | none => none
    | some url =>
      if title = "" || url = "" then none
      else
        let snippet :=
          if includeSnippets then
            (match c.snippetTexts with | [] => "" | s :: _ => pyStrip s)
          else ""
        some { title := title, url := url, domain := netloc url,
               snippet := snippet, rank := i + 1, source_engine := engine }

/-- `_parse_duckduckgo_results` (`src/main.py:271-320`). -/
def parse_duckduckgo_results (netloc : String → String) (maxResults : Nat)
    (includeSnippets : Bool) (containers : List LinkContainer) : List SearchResult :=
  (containers.take maxResults).enum.filterMap
    (fun p => linkExtract "duckduckgo" netloc includeSnippets p.1 p.2)

/-- `_parse_bing_results` (`src/main.py:322-371`). -/
def parse_bing_results (netloc : String → String) (maxResults : Nat)
    (includeSnippets : Bool) (containers : List LinkContainer) : List SearchResult :=
  (containers.take maxResults).enum.filterMap
    (fun p => linkExtract "bing" netloc includeSnippets p.1 p.2)

/-- A container with no `h3` at all, and second in document order a
perfectly good result container: the single parsed result carries rank 2,
not rank 1. -/
def emptyGoogleContainer : GContainer :=
  { h3Texts := [], primaryLinks := [], anchorLinks := [], snippetCandidates := [] }

def exampleGoogleContainer : GContainer :=
  { h3Texts := ["Example Domain"], primaryLinks := [some "https://example.com/"],
    anchorLinks := [], snippetCandidates := [] }

def exampleGoogleResult : SearchResult :=
  { title := "Example Domain", url := "https://example.com/", domain := "",
    snippet := "", rank := 2, source_engine := "google" }

/-- A DuckDuckGo container whose link is a bare page anchor. -/
def anchorLinkContainer : LinkContainer :=
  { titleLinks := [("Some title", some "#fragment")], snippetTexts := [] }

/-- A Google container whose only link is an internal search link. -/
def searchLinkGoogleContainer : GContainer :=
  { h3Texts := ["Some title"], primaryLinks := [some "/search?q=x"],
    anchorLinks := [], snippetCandidates := [] }

/-- A Bing container carrying a 5-character snippet text. -/
def shortSnippetBingContainer : LinkContainer :=
  { titleLinks := [("Bing title", some "https://example.org/")],
    snippetTexts := ["short"] }

/-- A Google container whose only snippet candidate is 4 characters long. -/
def shortCandidateGoogleContainer : GContainer :=
  { h3Texts := ["Google title"], primaryLinks := [some "https://example.net/"],
    anchorLinks := [], snippetCandidates := [["tiny"], []] }

def shortCandidateGoogleResult : SearchResult :=
  { title := "Google title", url := "https://example.net/", domain := "",
    snippet := "", rank := 1, source_engine := "google" }

/-- The apostrophe character, assembled from its code point. -/
def apostrophe : Char := Char.ofNat 39

/-- The fixed blocking phrases (`src/main.py:188-194`), all lowercase. -/
def blocked_indicators : List String :=
  ["unusual traffic", "captcha", "blocked",
   "verify you" ++ String.singleton apostrophe ++ "re not a robot",
   "our systems have detected unusual traffic"]

/-- `_is_google_blocked` (`src/main.py:182-197`): `True` with no driver;
otherwise lowercase the page source and test whether any fixed phrase
occurs in it, returning `False` when reading the page source itself raises
(the bare `except: return False`). -/
def is_google_blocked (driver : Option Unit)
    (pageSource : Except String String) : Bool :=
  match driver with
  | none => true
  | some _ =>
    match pageSource with
    | .error _ => false
    | .ok src =>
      blocked_indicators.any (fun ind => containsSubstring ind (pyLower src))

/-- A phrase occurs case-insensitively in a text when its lowercase form is
a substring of the lowercase text. -/
def occursCaseInsensitive (phrase text : String) : Bool :=
  containsSubstring (pyLower phrase) (pyLower text)

/-- Python `sep.join(xs)`. -/
def pyJoin (sep : String) (xs : List String) : String :=
  ⟨List.intercalate sep.data (xs.map String.data)⟩

/-- The page-content record returned by `get_page_content`
(`src/main.py:429-434` and `438-443`). -/
structure PageContent where
  url : String
  title : String
  content : String
  length : Nat
deriving DecidableEq

/-- The fallible steps of a content fetch, as an environment: driver setup
(`_setup_driver`), navigation (`self.driver.get(url)`), reading the page
title, and the text the HTML-to-text library extracts from the rendered
page (`soup.get_text()` after decomposing script/style/nav/header/footer —
an external-library step whose output is taken as given). -/
structure FetchEnv where
  setup : Except String Unit
  navigate : String → Except String Unit
  pageTitle : Except String String
  pageText : Except String String

/-- Text cleanup of `get_page_content` (`src/main.py:421-423`): strip each
line, split each line on double spaces stripping the phrases, and join the
non-empty chunks with single spaces. -/
def cleanText (text : String) : String :=
  let lines := (pySplitOn text "\n").map pyStrip
  let chunks := (lines.map (fun line => (pySplitOn line "  ").map pyStrip)).flatten
  pyJoin " " (chunks.filter (fun c => c ≠ ""))

/-- The sequence of fallible steps inside the `try` of `get_page_content`
(`src/main.py:394-418`): lazy driver setup, navigation, title read, text
extraction.  The first raising step short-circuits.  (The `self.driver is
None` re-raise on lines 398-399 is unreachable because `_setup_driver`
either raises or assigns the driver.) -/
def fetchSteps (driverInitialized : Bool) (env : FetchEnv) (url : String) :
    Except String (String × String) := do
  if !driverInitialized then env.setup
  env.navigate url
  let title ← env.pageTitle
  let raw ← env.pageText
  pure (title, raw)

/-- `get_page_content` (`src/main.py:383-443`): the whole fetch path runs
inside one `try`; on success the extracted text is cleaned, truncated to
`max_length` characters plus a literal `"..."` when too long, and returned
with its length; any exception is caught and converted to an error-text
record with `length = 0` (`src/main.py:436-443`). -/
def get_page_content (driverInitialized : Bool) (env : FetchEnv) (url : String)
    (maxLength : Nat) : PageContent :=
  match fetchSteps driverInitialized env url with
  | .ok (title, raw) =>
    let text := cleanText raw
    let text := if pyLen text > maxLength then pyTake text maxLength ++ "..." else text
    { url := url, title := title, content := text, length := pyLen text }
  | .error e =>
    { url := url, title := "", content := "Error fetching content: " ++ e, length := 0 }

/-- A fetch environment whose driver setup raises. -/
def initFailureFetchEnv : FetchEnv :=
  { setup := .error "boom", navigate := fun _ => .ok (),
    pageTitle := .ok "", pageText := .ok "" }

/-- A second fetch environment whose driver setup raises. -/
def initFailureFetchEnvB : FetchEnv :=
  { setup := .error "boom", navigate := fun _ => .ok (),
    pageTitle := .ok "", pageText := .ok "" }

/-- Adapters that always raise, for the C5 witness. -/
def allErrAdapters : String → Outcome := fun _ => Outcome.err

/-- A 50-character extracted text (the cleanup leaves it unchanged). -/
def fiftyChars : String := "aaaaaaaaaaaaaaaaaaaaaaaaaaaaaaaaaaaaaaaaaaaaaaaaaa"

/-- A fetch environment that succeeds and extracts the 50-character text. -/
def longTextFetchEnv : FetchEnv :=
  { setup := .ok (), navigate := fun _ => .ok (),
    pageTitle := .ok "Title", pageText := .ok fiftyChars }

/-- A fetch environment that succeeds with a short extracted text. -/
def shortTextFetchEnv : FetchEnv :=
  { setup := .ok (), navigate := fun _ => .ok (),
    pageTitle := .ok "T", pageText := .ok "hello world" }

/-- A fetch environment whose navigation raises. -/
def navFailureFetchEnv : FetchEnv :=
  { setup := .ok (), navigate := fun _ => .error "timeout",
    pageTitle := .ok "T", pageText := .ok "hello world" }

/-! ### Lemmas and claim theorems -/

/-- Adding an engine whose adapter raises to the blocked set does not change
which engines the spec-side scan considers usable. -/
lemma specUsableEngine_insert_err (adapters : String → Outcome)
    (blocked : Finset String) (e : String) (he : adapters e = .err) :
    specUsableEngine adapters (insert e blocked) = specUsableEngine adapters blocked := by
  funext f
  by_cases hf : f = e
  · subst hf
    simp [specUsableEngine, he]
  · simp [specUsableEngine, Finset.mem_insert, hf]

/-- The engine loop returns exactly what the first-usable-engine scan
prescribes, for any engine list. -/
lemma fallbackLoop_fst (adapters : String → Outcome) :
    ∀ (engines : List String) (blocked : Finset String),
      (fallbackLoop adapters engines blocked).1
        = match engines.find? (specUsableEngine adapters blocked) with
          | some e => ((match adapters e with | .ok rs => rs | .err => []), e)
          | none => ([], "none")
  | [], blocked => rfl
  | e :: rest, blocked => by
    by_cases he : e ∈ blocked
    · have hp : specUsableEngine adapters blocked e = false := by
        simp [specUsableEngine, he]
      simp only [fallbackLoop, if_pos he, List.find?_cons, hp]
      exact fallbackLoop_fst adapters rest blocked
    · cases hadapt : adapters e with
      | ok rs =>
        cases hrs : rs.isEmpty with
        | true =>
          have hp : specUsableEngine adapters blocked e = false := by
            simp [specUsableEngine, hadapt, hrs]
          simp only [fallbackLoop, if_neg he, hadapt, hrs, if_pos rfl, List.find?_cons, hp]
          exact fallbackLoop_fst adapters rest blocked
        | false =>
          have hp : specUsableEngine adapters blocked e = true := by
            simp [specUsableEngine, he, hadapt, hrs]
          simp [fallbackLoop, if_neg he, hadapt, hrs, List.find?_cons, hp]
      | err =>
        have hp : specUsableEngine adapters blocked e = false := by
          simp [specUsableEngine, hadapt]
        simp only [fallbackLoop, if_neg he, hadapt, List.find?_cons, hp]
        rw [fallbackLoop_fst adapters rest (insert e blocked),
          specUsableEngine_insert_err adapters blocked e hadapt]

/-- C1: with a live driver, `search_with_fallback` runs the engine loop, and
the loop tries the engines strictly in the fixed order google, duckduckgo,
bing, skips blocked names, and returns the first engine's non-empty result
list paired with that engine's name — equivalently, the pair the spec-side
first-usable-engine scan prescribes; when every engine is blocked or
exhausted it returns `([], "none")`. -/
theorem search_with_fallback_follows_preference_order
    (setup : Except String Unit) (adapters : String → Outcome)
    (blocked : Finset String) :
    search_with_fallback true setup adapters blocked
      = Except.ok (fallbackLoop adapters searchEngines blocked)
    ∧ (fallbackLoop adapters searchEngines blocked).1 = specFallback adapters blocked := by
  refine ⟨rfl, ?_⟩
  rw [fallbackLoop_fst adapters searchEngines blocked]
  rfl

lemma mostRecentAttemptErred_append (e : String) (h : List PEvent) (x : PEvent) :
    mostRecentAttemptErred e (h ++ [x]).reverse
      = mostRecentAttemptErred e (x :: h.reverse) := by
  simp

/-- An erring attempt of an engine inserts it into the blocked set and makes
it the engine's most recent attempt. -/
lemma blockedInv_err (b : Finset String) (h : List PEvent) (e : String)
    (hinv : BlockedInv b h) :
    BlockedInv (insert e b) (h ++ [PEvent.attempt e .err]) := by
  intro f
  rw [mostRecentAttemptErred_append]
  by_cases hf : f = e
  · subst hf
    simp [mostRecentAttemptErred]
  · simpa [mostRecentAttemptErred, hf, Ne.symm hf] using hinv f

/-- A non-raising attempt of an engine that is not blocked leaves the
invariant intact when the set is unchanged (the empty-result case). -/
lemma blockedInv_ok_empty (b : Finset String) (h : List PEvent) (e : String)
    (rs : List SearchResult) (hinv : BlockedInv b h) (he : e ∉ b) :
    BlockedInv b (h ++ [PEvent.attempt e (.ok rs)]) := by
  intro f
  rw [mostRecentAttemptErred_append]
  by_cases hf : f = e
  · subst hf
    simp [mostRecentAttemptErred, he]
  · simpa [mostRecentAttemptErred, hf, Ne.symm hf] using hinv f

/-- A successful (non-empty) attempt erases the engine from the blocked set
and makes success its most recent attempt. -/
lemma blockedInv_ok_erase (b : Finset String) (h : List PEvent) (e : String)
    (rs : List SearchResult) (hinv : BlockedInv b h) :
    BlockedInv (b.erase e) (h ++ [PEvent.attempt e (.ok rs)]) := by
  intro f
  rw [mostRecentAttemptErred_append]
  by_cases hf : f = e
  · subst hf
    simp [mostRecentAttemptErred]
  · simp only [mostRecentAttemptErred, if_neg (Ne.symm hf)]
    rw [Finset.mem_erase]
    simpa [hf] using hinv f

/-- The engine loop preserves the blocked-set/history invariant, appending
exactly the attempts it makes. -/
lemma fallbackLoop_blockedInv (adapters : String → Outcome) :
    ∀ (engines : List String) (b : Finset String) (h : List PEvent),
      BlockedInv b h →
      BlockedInv (fallbackLoop adapters engines b).2.1
        (h ++ ((fallbackLoop adapters engines b).2.2).map (fun a => PEvent.attempt a.1 a.2))
  | [], b, h, hinv => by simpa [fallbackLoop] using hinv
  | e :: rest, b, h, hinv => by
    by_cases he : e ∈ b
    · simp only [fallbackLoop, if_pos he]
      exact fallbackLoop_blockedInv adapters rest b h hinv
    · cases hadapt : adapters e with
      | ok rs =>
        cases hrs : rs.isEmpty with
        | true =>
          simp only [fallbackLoop, if_neg he, hadapt, hrs, if_true, List.map_cons]
          rw [List.append_cons]
          exact fallbackLoop_blockedInv adapters rest b
            (h ++ [PEvent.attempt e (.ok rs)])
            (blockedInv_ok_empty b h e rs hinv he)
        | false =>
          simp only [fallbackLoop, if_neg he, hadapt, hrs, Bool.false_eq_true,
            if_false, List.map_cons, List.map_nil]
          exact blockedInv_ok_erase b h e rs hinv
      | err =>
        simp only [fallbackLoop, if_neg he, hadapt, List.map_cons]
        rw [List.append_cons]
        exact fallbackLoop_blockedInv adapters rest (insert e b)
          (h ++ [PEvent.attempt e .err])
          (blockedInv_err b h e hinv)

/-- Each operation preserves the blocked-set/history invariant. -/
lemma stepEvent_blockedInv (st : Finset String × List PEvent) (ev : Event)
    (hinv : BlockedInv st.1 st.2) :
    BlockedInv (stepEvent st ev).1 (stepEvent st ev).2 := by
  cases ev with
  | searchCall adapters =>
    exact fallbackLoop_blockedInv adapters searchEngines st.1 st.2 hinv
  | resetCall =>
    intro f
    rw [stepEvent]
    simp [reset_blocked_engines, mostRecentAttemptErred]

lemma foldl_blockedInv :
    ∀ (evs : List Event) (st : Finset String × List PEvent),
      BlockedInv st.1 st.2 →
      BlockedInv (evs.foldl stepEvent st).1 (evs.foldl stepEvent st).2
  | [], _, hinv => hinv
  | ev :: rest, st, hinv =>
    foldl_blockedInv rest (stepEvent st ev) (stepEvent_blockedInv st ev hinv)

/-- C2: after any sequence of search and reset operations from process
start, an engine name is in the blocked set iff its most recent adapter
attempt raised and no reset has happened since (empty-but-successful
attempts never enter it, successful attempts leave it); and a trailing
`reset_blocked_engines` call empties the set unconditionally. -/
theorem blocked_engines_invariant (evs : List Event) (e : String) :
    (e ∈ (runEvents evs).1
      ↔ mostRecentAttemptErred e (runEvents evs).2.reverse = true)
    ∧ (runEvents (evs ++ [Event.resetCall])).1 = ∅ := by
  constructor
  · exact foldl_blockedInv evs (∅, []) (fun f => by simp [mostRecentAttemptErred]) e
  · rw [runEvents, List.foldl_append]
    rfl

/-- Every record emitted by the Google per-container extraction carries
`rank = i + 1` where `i` is the container's raw enumeration index. -/
lemma googleExtract_rank (netloc : String → String) (inc : Bool) (i : Nat)
    (c : GContainer) (r : SearchResult)
    (h : googleExtract netloc inc i c = some r) : r.rank = i + 1 := by
  unfold googleExtract at h
  repeat'
    first
      | split at h
      | dsimp only at h
  any_goals exact Option.noConfusion h
  all_goals
    injection h with h
    subst h
    rfl

/-- Every record emitted by the DuckDuckGo/Bing per-container extraction
carries `rank = i + 1` where `i` is the container's raw enumeration index. -/
lemma linkExtract_rank (engine : String) (netloc : String → String) (inc : Bool)
    (i : Nat) (c : LinkContainer) (r : SearchResult)
    (h : linkExtract engine netloc inc i c = some r) : r.rank = i + 1 := by
  unfold linkExtract at h
  repeat'
    first
      | split at h
      | dsimp only at h
  any_goals exact Option.noConfusion h
  all_goals
    injection h with h
    subst h
    rfl

/-- C3 counterexample: parsing a Google page whose first container lacks a
title (hence is skipped) and whose second container is good yields exactly
one result, and its `rank` is 2 — the container's raw document-order index
plus one — not 1, the sequential count of successfully extracted results
that the claim prescribes. -/
theorem google_rank_counts_skipped_containers :
    (parse_google_results (fun _ => "") 10 true
        [emptyGoogleContainer, exampleGoogleContainer]).map (fun r => r.rank) = [2]
    ∧ (parse_google_results (fun _ => "") 10 true
        [emptyGoogleContainer, exampleGoogleContainer]).length = 1 := by
  exact ⟨rfl, rfl⟩

/-- C3 amended: a container lacking a usable title or a usable link is
skipped and never emitted, but it still consumes a rank slot: each emitted
result's `rank` is one plus the raw enumeration index of its container among
the first `max_results` containers (so ranks can have gaps), for the Google
parser and the DuckDuckGo parser alike. -/
theorem parser_rank_is_raw_container_index (netloc : String → String)
    (m : Nat) (inc : Bool) :
    (∀ (cs : List GContainer) (r : SearchResult),
        r ∈ parse_google_results netloc m inc cs →
        ∃ c, (cs.take m)[r.rank - 1]? = some c
          ∧ googleExtract netloc inc (r.rank - 1) c = some r)
    ∧ (∀ (i : Nat) (c : GContainer),
        c.h3Texts = [] ∨ (c.primaryLinks = [] ∧ c.anchorLinks = []) →
        googleExtract netloc inc i c = none)
    ∧ (∀ (cs : List LinkContainer) (r : SearchResult),
        r ∈ parse_duckduckgo_results netloc m inc cs →
        ∃ c, (cs.take m)[r.rank - 1]? = some c
          ∧ linkExtract "duckduckgo" netloc inc (r.rank - 1) c = some r) := by
  refine ⟨?_, ?_, ?_⟩
  · intro cs r hr
    rw [parse_google_results, List.mem_filterMap] at hr
    obtain ⟨p, hp, hex⟩ := hr
    have hrank := googleExtract_rank netloc inc p.1 p.2 r hex
    rw [List.mem_enum_iff_getElem?] at hp
    have hidx : r.rank - 1 = p.1 := by omega
    exact ⟨p.2, by rw [hidx]; exact hp, by rw [hidx]; exact hex⟩
  · intro i c hc
    rcases hc with hc | ⟨hc1, hc2⟩
    · simp [googleExtract, hc]
    · unfold googleExtract
      cases c.h3Texts with
      | nil => rfl
      | cons t0 ts =>
        simp [hc1, hc2]
  · intro cs r hr
    rw [parse_duckduckgo_results, List.mem_filterMap] at hr
    obtain ⟨p, hp, hex⟩ := hr
    have hrank := linkExtract_rank "duckduckgo" netloc inc p.1 p.2 r hex
    rw [List.mem_enum_iff_getElem?] at hp
    have hidx : r.rank - 1 = p.1 := by omega
    exact ⟨p.2, by rw [hidx]; exact hp, by rw [hidx]; exact hex⟩

/-- Witness for the amended C3 theorem at a concrete input: the single
result parsed from the two-container Google page above originates from the
container at raw index `rank - 1 = 1`. -/
theorem parser_rank_is_raw_container_index_witness :
    ∃ c, (([emptyGoogleContainer, exampleGoogleContainer].take 10))[exampleGoogleResult.rank - 1]? = some c
      ∧ googleExtract (fun _ => "") true (exampleGoogleResult.rank - 1) c = some exampleGoogleResult :=
  (parser_rank_is_raw_container_index (fun _ => "") 10 true).1
    [emptyGoogleContainer, exampleGoogleContainer] exampleGoogleResult (by decide)

/-- C6 counterexample: the DuckDuckGo parser emits a result whose link
begins with `#` — only the Google parser discards `/search` and `#` links,
so the claim fails for "every engine parser". -/
theorem duckduckgo_emits_anchor_link :
    parse_duckduckgo_results (fun _ => "") 10 true [anchorLinkContainer]
      = [{ title := "Some title", url := "#fragment", domain := "", snippet := "",
           rank := 1, source_engine := "duckduckgo" }]
    ∧ pyStartsWith "#fragment" "#" = true := by
  exact ⟨by decide, by decide⟩

/-- C6 amended: the Google parser discards containers whose first resolved
link begins with `/search` or `#`, and unwraps the `/url?q=` redirect
wrapper (the claim's concrete wrapped URL normalizes to exactly
`https://example.com/`); the DuckDuckGo and Bing parsers apply no such
filtering or unwrapping and emit the link unchanged. -/
theorem google_url_filtering_and_unwrapping (netloc : String → String) :
    (∀ (inc : Bool) (i : Nat) (c : GContainer) (u : String),
        (if c.primaryLinks.isEmpty then c.anchorLinks else c.primaryLinks).head?
            = some (some u) →
        (pyStartsWith u "/search" = true ∨ pyStartsWith u "#" = true) →
        googleExtract netloc inc i c = none)
    ∧ googleUnwrap "/url?q=https://example.com/&sa=test" = "https://example.com/"
    ∧ (∀ (engine : String) (inc : Bool) (i : Nat) (t u : String)
        (tl : List (String × Option String)) (st : List String),
        pyStrip t ≠ "" → u ≠ "" →
        (linkExtract engine netloc inc i ⟨(t, some u) :: tl, st⟩).map (fun r => r.url)
          = some u) := by
  refine ⟨?_, by decide, ?_⟩
  · intro inc i c u hhead hstart
    unfold googleExtract
    cases hh : c.h3Texts with
    | nil => rfl
    | cons t0 ts =>
      dsimp only
      by_cases ht : pyStrip t0 = ""
      · rw [if_pos ht]
      · rw [if_neg ht]
        cases hlinks : (if c.primaryLinks.isEmpty then c.anchorLinks else c.primaryLinks) with
        | nil => rfl
        | cons l0 ls =>
          rw [hlinks] at hhead
          simp only [List.head?_cons, Option.some.injEq] at hhead
          subst hhead
          have hcond :
              (decide (u = "") || pyStartsWith u "/search" || pyStartsWith u "#") = true := by
            rcases hstart with h | h <;> simp [h]
          dsimp only
          rw [if_pos hcond]
  · intro engine inc i t u tl st ht hu
    unfold linkExtract
    dsimp only
    rw [if_neg (by simp [ht, hu])]
    cases inc <;> rfl

/-- Witness for the amended C6 theorem: the Google parser drops a concrete
`/search` container, while the Bing per-container extraction emits a
concrete `#` link unchanged. -/
theorem google_url_filtering_and_unwrapping_witness :
    googleExtract (fun _ => "") true 0 searchLinkGoogleContainer = none
    ∧ (linkExtract "bing" (fun _ => "") true 0
        ⟨[("T", some "#x")], []⟩).map (fun r => r.url) = some "#x" :=
  ⟨(google_url_filtering_and_unwrapping (fun _ => "")).1 true 0 searchLinkGoogleContainer
      "/search?q=x" (by decide) (Or.inl (by decide)),
   (google_url_filtering_and_unwrapping (fun _ => "")).2.2 "bing" true 0 "T" "#x" [] []
      (by decide) (by decide)⟩

/-- C7 counterexample: the Bing parser emits a non-empty snippet of only 5
characters — the 20-character floor exists only in the Google parser, so
the claim fails for "every engine parser". -/
theorem bing_emits_short_snippet :
    (parse_bing_results (fun _ => "") 10 true [shortSnippetBingContainer]).map
        (fun r => r.snippet) = ["short"]
    ∧ pyLen "short" ≤ 20 ∧ "short" ≠ "" := by
  exact ⟨by decide, by decide, by decide⟩

/-- The Google snippet selection yields the empty string or a text longer
than 20 characters, never a short non-empty snippet. -/
lemma googleSnippet_long_or_empty :
    ∀ cands : List (List String),
      googleSnippet cands = "" ∨ 20 < pyLen (googleSnippet cands)
  | [] => Or.inl rfl
  | cand :: rest => by
    cases cand with
    | nil => exact googleSnippet_long_or_empty rest
    | cons t ts =>
      dsimp only [googleSnippet]
      by_cases h : 20 < pyLen (pyStrip t)
      · rw [if_pos h]
        exact Or.inr h
      · rw [if_neg h]
        exact googleSnippet_long_or_empty rest

/-- C7 amended: in the Google parser a snippet candidate of 20 or fewer
characters is rejected and the next candidate selector tried, so an emitted
Google snippet is empty or longer than 20 characters; the DuckDuckGo and
Bing parsers instead take the first snippet element's stripped text
regardless of its length. -/
theorem snippet_length_floor_google_only (netloc : String → String) :
    (∀ cands : List (List String),
        googleSnippet cands = "" ∨ 20 < pyLen (googleSnippet cands))
    ∧ (∀ (inc : Bool) (i : Nat) (c : GContainer) (r : SearchResult),
        googleExtract netloc inc i c = some r →
        r.snippet = "" ∨ 20 < pyLen r.snippet)
    ∧ (∀ (engine : String) (i : Nat) (t u s : String)
        (tl : List (String × Option String)) (st : List String),
        pyStrip t ≠ "" → u ≠ "" →
        (linkExtract engine netloc true i ⟨(t, some u) :: tl, s :: st⟩).map
            (fun r => r.snippet) = some (pyStrip s)) := by
  refine ⟨googleSnippet_long_or_empty, ?_, ?_⟩
  · intro inc i c r h
    unfold googleExtract at h
    repeat'
      first
        | split at h
        | dsimp only at h
    any_goals exact Option.noConfusion h
    all_goals
      injection h with h
      subst h
      first
        | exact Or.inl rfl
        | exact googleSnippet_long_or_empty c.snippetCandidates
  · intro engine i t u s tl st ht hu
    unfold linkExtract
    dsimp only
    rw [if_neg (by simp [ht, hu])]
    rfl

/-- Witness for the amended C7 theorem: the Google extraction of a concrete
container whose only candidate is 4 characters long yields an empty
snippet. -/
theorem snippet_length_floor_google_only_witness :
    shortCandidateGoogleResult.snippet = ""
      ∨ 20 < pyLen shortCandidateGoogleResult.snippet :=
  (snippet_length_floor_google_only (fun _ => "")).2.1 true 0
    shortCandidateGoogleContainer shortCandidateGoogleResult (by decide)

/-- Each fixed blocking phrase is already lowercase. -/
lemma blocked_indicators_lower :
    ∀ ind ∈ blocked_indicators, pyLower ind = ind := by decide

/-- C10: the block-detection check is a total boolean function — it is
`true` with no driver, `false` when reading the page source raises, and
with readable page source it is `true` exactly when one of the fixed
blocking phrases occurs case-insensitively in the page text. -/
theorem is_google_blocked_total_and_case_insensitive
    (pageSource : Except String String) :
    is_google_blocked none pageSource = true
    ∧ (∀ e, pageSource = .error e → is_google_blocked (some ()) pageSource = false)
    ∧ (∀ src, pageSource = .ok src →
        (is_google_blocked (some ()) pageSource = true
          ↔ ∃ ind ∈ blocked_indicators, occursCaseInsensitive ind src = true)) := by
  refine ⟨rfl, ?_, ?_⟩
  · intro e he
    subst he
    rfl
  · intro src hsrc
    subst hsrc
    show (blocked_indicators.any fun ind => containsSubstring ind (pyLower src)) = true ↔ _
    rw [List.any_eq_true]
    constructor
    · rintro ⟨ind, hmem, hc⟩
      refine ⟨ind, hmem, ?_⟩
      rw [occursCaseInsensitive, blocked_indicators_lower ind hmem]
      exact hc
    · rintro ⟨ind, hmem, hc⟩
      refine ⟨ind, hmem, ?_⟩
      rw [occursCaseInsensitive, blocked_indicators_lower ind hmem] at hc
      exact hc

/-- Witness for C10 at concrete inputs: an unreadable page source yields
`false`, and a page whose text contains `CAPTCHA` in capitals satisfies the
case-insensitive characterization. -/
theorem is_google_blocked_total_and_case_insensitive_witness :
    is_google_blocked (some ()) (Except.error "boom") = false
    ∧ (is_google_blocked (some ()) (Except.ok "Please solve this CAPTCHA now") = true
        ↔ ∃ ind ∈ blocked_indicators,
            occursCaseInsensitive ind "Please solve this CAPTCHA now" = true) :=
  ⟨(is_google_blocked_total_and_case_insensitive (Except.error "boom")).2.1 "boom" rfl,
   (is_google_blocked_total_and_case_insensitive
      (Except.ok "Please solve this CAPTCHA now")).2.2 "Please solve this CAPTCHA now" rfl⟩

/-- C4: the content fetch never propagates an exception — whenever any step
in its path fails, it returns the error-shaped `PageContent` carrying a
human-readable message (and being a total function into `PageContent`, it
cannot raise at all). -/
theorem get_page_content_degrades_to_error_payload (driverInitialized : Bool)
    (env : FetchEnv) (url : String) (maxLength : Nat) (e : String)
    (h : fetchSteps driverInitialized env url = .error e) :
    get_page_content driverInitialized env url maxLength
      = { url := url, title := "",
          content := "Error fetching content: " ++ e, length := 0 } := by
  unfold get_page_content
  rw [h]

/-- Witness for C4 at a concrete input: with failing driver setup, the
fetch returns the error payload. -/
theorem get_page_content_degrades_to_error_payload_witness :
    get_page_content false initFailureFetchEnv "https://a.example/" 5
      = { url := "https://a.example/", title := "",
          content := "Error fetching content: boom", length := 0 } :=
  get_page_content_degrades_to_error_payload false initFailureFetchEnv
    "https://a.example/" 5 "boom" rfl

/-- C5 counterexample: when driver setup raises during a content fetch, the
exception is NOT raised past the operation boundary — `get_page_content`
converts it into the error-shaped return value, because the setup call on
`src/main.py:395-396` sits inside the `try` whose handler is on line 436.
This refutes the claim that both operations propagate setup failure. -/
theorem fetch_converts_driver_init_failure :
    initFailureFetchEnvB.setup = Except.error "boom"
    ∧ get_page_content false initFailureFetchEnvB "https://example.com/" 100
        = { url := "https://example.com/", title := "",
            content := "Error fetching content: boom", length := 0 } := ⟨rfl, rfl⟩

/-- C5 amended: driver-initialization failure propagates as a hard error
out of the search operation (its setup call is outside any `try`), while
the content-fetch operation catches it and returns the error-shaped
`PageContent`. -/
theorem driver_init_failure_propagates_only_from_search (e : String) :
    (∀ (adapters : String → Outcome) (blocked : Finset String),
        search_with_fallback false (Except.error e) adapters blocked
          = Except.error e)
    ∧ (∀ (env : FetchEnv) (url : String) (maxLength : Nat),
        env.setup = Except.error e →
        get_page_content false env url maxLength
          = { url := url, title := "",
              content := "Error fetching content: " ++ e, length := 0 }) := by
  constructor
  · intro adapters blocked
    rfl
  · intro env url maxLength h
    have hsteps : fetchSteps false env url = .error e := by
      unfold fetchSteps
      rw [show (!false) = true from rfl, if_pos rfl, h]
      rfl
    unfold get_page_content
    rw [hsteps]

/-- Witness for the amended C5 theorem at concrete inputs. -/
theorem driver_init_failure_propagates_only_from_search_witness :
    search_with_fallback false (Except.error "boom") allErrAdapters ∅
        = Except.error "boom"
    ∧ get_page_content false initFailureFetchEnvB "https://w.example/" 7
        = { url := "https://w.example/", title := "",
            content := "Error fetching content: boom", length := 0 } :=
  ⟨(driver_init_failure_propagates_only_from_search "boom").1 allErrAdapters ∅,
   (driver_init_failure_propagates_only_from_search "boom").2 initFailureFetchEnvB
      "https://w.example/" 7 rfl⟩

lemma pyLen_append (s t : String) : pyLen (s ++ t) = pyLen s + pyLen t := by
  cases s with
  | mk ds =>
    cases t with
    | mk dt => simp [pyLen, String.append]

lemma pyLen_take (s : String) (n : Nat) : pyLen (pyTake s n) = min n (pyLen s) := by
  simp [pyLen, pyTake]

/-- C8: whenever the cleaned extracted text exceeds `max_length` characters,
the returned content is exactly the first `max_length` characters followed
by the literal `"..."` marker, `max_length + 3` characters in total. -/
theorem content_truncated_to_max_length_plus_marker (driverInitialized : Bool)
    (env : FetchEnv) (url : String) (maxLength : Nat) (title raw : String)
    (hok : fetchSteps driverInitialized env url = .ok (title, raw))
    (hlong : maxLength < pyLen (cleanText raw)) :
    (get_page_content driverInitialized env url maxLength).content
      = pyTake (cleanText raw) maxLength ++ "..."
    ∧ pyLen (get_page_content driverInitialized env url maxLength).content
      = maxLength + 3 := by
  have hcontent : (get_page_content driverInitialized env url maxLength).content
      = pyTake (cleanText raw) maxLength ++ "..." := by
    unfold get_page_content
    rw [hok]
    dsimp only
    rw [if_pos hlong]
  refine ⟨hcontent, ?_⟩
  rw [hcontent, pyLen_append, pyLen_take, Nat.min_eq_left (Nat.le_of_lt hlong)]
  rfl

/-- Witness for C8 at the claim's concrete input: `max_length = 10` and a
50-character cleaned input give exactly the 10-character prefix plus the
marker, 13 characters in total. -/
theorem content_truncated_to_max_length_plus_marker_witness :
    ((get_page_content true longTextFetchEnv "https://t.example/" 10).content
        = pyTake (cleanText fiftyChars) 10 ++ "..."
      ∧ pyLen (get_page_content true longTextFetchEnv "https://t.example/" 10).content
        = 10 + 3)
    ∧ (get_page_content true longTextFetchEnv "https://t.example/" 10).content
        = "aaaaaaaaaa..."
    ∧ pyLen fiftyChars = 50 :=
  ⟨content_truncated_to_max_length_plus_marker true longTextFetchEnv
      "https://t.example/" 10 "Title" fiftyChars rfl (by decide),
   by decide, by decide⟩

/-- C9: the `length` field of a returned `PageContent` equals the character
count of its `content` field on every successful fetch (post-truncation),
and is 0 on the failure path (where `content` instead holds the error
message). -/
theorem page_content_length_field (driverInitialized : Bool) (env : FetchEnv)
    (url : String) (maxLength : Nat) :
    (∀ title raw, fetchSteps driverInitialized env url = .ok (title, raw) →
        (get_page_content driverInitialized env url maxLength).length
          = pyLen (get_page_content driverInitialized env url maxLength).content)
    ∧ (∀ e, fetchSteps driverInitialized env url = .error e →
        (get_page_content driverInitialized env url maxLength).length = 0) := by
  constructor
  · intro title raw hok
    unfold get_page_content
    rw [hok]
  · intro e herr
    unfold get_page_content
    rw [herr]

/-- Witness for C9 at concrete inputs: a successful fetch has
`length = len(content)`, a failing one has `length = 0`. -/
theorem page_content_length_field_witness :
    (get_page_content true shortTextFetchEnv "https://len.example/" 100).length
      = pyLen (get_page_content true shortTextFetchEnv "https://len.example/" 100).content
    ∧ (get_page_content true navFailureFetchEnv "https://len.example/" 100).length = 0 :=
  ⟨(page_content_length_field true shortTextFetchEnv "https://len.example/" 100).1
      "T" "hello world" rfl,
   (page_content_length_field true navFailureFetchEnv "https://len.example/" 100).2
      "timeout" rfl⟩
